import Mathlib

/-!
Verification of the VibeCode workflow-enforcement engine.

The definitions below are a shallow embedding of the Python sources under
`scripts/enforcement/`: `config.py` (step registry, constraint table,
default state document), `state_manager.py` (persisted state, setters, gate
evaluators), `check-step-validation.py` (action dispatch),
`sync-task-to-state.py` (task-to-step inference and sync hook) and
`vibe-cli.py` (manual command surface).  Machine-level details abstracted:
timestamps are left out of history entries (only the message text is
modelled), and JSON serialization is modelled as the identity on the
document dictionary.
-/

namespace VibeCode

/-- One entry of the step registry `STEPS` in `config.py`. -/
structure StepInfo where
  name : String
  required_artifacts : List String
  gate : String
  allows_code_edit : Bool
deriving DecidableEq, Repr

/-- The step registry `STEPS` of `config.py`, as an ordered key-value list
(the Python dict with integer keys 0..15). -/
def STEPS : List (Int × StepInfo) :=
  [ (0, ⟨"Problem Statement", [], "none", false⟩),
    (1, ⟨"Discovery Q&A", [], "none", false⟩),
    (2, ⟨"Write spec.md", ["spec.md"], "user_approval", false⟩),
    (3, ⟨"Generate plan.md", ["plan.md"], "subagent_critique", false⟩),
    (4, ⟨"Plan Critique", [], "none", false⟩),
    (5, ⟨"Rules & Guardrails", ["rules.md"], "none", false⟩),
    (6, ⟨"Select Bead/Task", [], "task_selected", false⟩),
    (7, ⟨"Context Packing", ["context-pack.md"], "context_exists", false⟩),
    (8, ⟨"Implementation", [], "context_pack_verified", true⟩),
    (9, ⟨"Run Tests/Checks", [], "tests_pass", true⟩),
    (10, ⟨"GREEN Check", [], "all_green", true⟩),
    (11, ⟨"Debug Loop", [], "none", true⟩),
    (12, ⟨"Human Review", [], "human_approval", false⟩),
    (13, ⟨"Second Model Review", [], "none", false⟩),
    (14, ⟨"Commit", [], "human_approval_verified", false⟩),
    (15, ⟨"Loop or Merge", [], "none", false⟩) ]

/-- One entry of `TEMPORAL_CONSTRAINTS` in `config.py`. -/
structure Constraint where
  min_step : Int
  requires : List String
deriving DecidableEq, Repr

/-- `TEMPORAL_CONSTRAINTS` of `config.py`. -/
def TEMPORAL_CONSTRAINTS : List (String × Constraint) :=
  [ ("edit_code", ⟨8, ["context_pack_exists"]⟩),
    ("commit", ⟨14, ["tests_passed", "human_approved"]⟩),
    ("push", ⟨15, ["committed"]⟩),
    ("implement", ⟨8, ["context_pack_exists", "task_selected"]⟩) ]

/-- The `verification` sub-object of the workflow state document. -/
structure Verification where
  tests_passed : Bool
  lint_passed : Bool
deriving DecidableEq, Repr

/-- The `approvals` sub-object of the workflow state document. -/
structure Approvals where
  spec_md : Bool
  plan_md : Bool
  human_review : Bool
deriving DecidableEq, Repr

/-- The `context` sub-object of the workflow state document. -/
structure ContextFlags where
  context_pack_exists : Bool
  task_selected : Bool
deriving DecidableEq, Repr

/-- A well-formed workflow state: the typed view of the state dictionary
handled by `StateManager` (`state_manager.py`).  Timestamp-only fields of
`session` and `verification.last_check` are omitted; history entries are
modelled by their message text. -/
structure WorkflowState where
  current_step : Int
  current_bead_id : Option String
  problem_statement : String
  verification : Verification
  approvals : Approvals
  context : ContextFlags
  history : List String
deriving DecidableEq, Repr

/-- The typed view of `DEFAULT_STATE` in `config.py`. -/
def defaultWorkflowState : WorkflowState :=
  { current_step := 0
    current_bead_id := none
    problem_statement := ""
    verification := ⟨false, false⟩
    approvals := ⟨false, false, false⟩
    context := ⟨false, false⟩
    history := [] }

/-- `StateManager.get_step_info`: `STEPS.get(step, STEPS[0])`. -/
def get_step_info (step : Int) : StepInfo :=
  (STEPS.lookup step).getD ((STEPS.lookup 0).getD ⟨"", [], "", false⟩)

/-- The `for requirement in constraints.get("requires", [])` loop of
`StateManager.can_edit_code`: returns `some result` when the loop body
returns early with a denial, `none` when the loop falls through. -/
def requiresLoop (reqs : List String) (st : WorkflowState)
    (context_pack_file_exists : Bool) : Option (Bool × String) :=
  match reqs with
  | [] => none
  | r :: rest =>
    if r = "context_pack_exists" then
      if !st.context.context_pack_exists then
        if !context_pack_file_exists then
          some (false, "context-pack.md must exist before code editing (Step 7)")
        else requiresLoop rest st context_pack_file_exists
      else requiresLoop rest st context_pack_file_exists
    else requiresLoop rest st context_pack_file_exists

/-- `StateManager.can_edit_code`.  The live result of
`CONTEXT_PACK_FILE.exists()` is the external input
`context_pack_file_exists`. -/
def can_edit_code (st : WorkflowState) (context_pack_file_exists : Bool) :
    Bool × String :=
  let step := st.current_step
  let step_info := get_step_info step
  if !step_info.allows_code_edit then
    (false, "Step " ++ toString step ++ " (" ++ step_info.name ++
      ") does not allow code editing. Must be Step 8+ (Implementation).")
  else
    let constraints := TEMPORAL_CONSTRAINTS.lookup "edit_code"
    let min_step := (constraints.map Constraint.min_step).getD 0
    if step < min_step then
      (false, "Code editing requires Step " ++ toString min_step ++
        "+. Current: Step " ++ toString step)
    else
      match requiresLoop ((constraints.map Constraint.requires).getD []) st
          context_pack_file_exists with
      | some result => result
      | none => (true, "OK")

/-- `StateManager.can_commit`. -/
def can_commit (st : WorkflowState) : Bool × String :=
  let step := st.current_step
  let min_step :=
    ((TEMPORAL_CONSTRAINTS.lookup "commit").map Constraint.min_step).getD 14
  if step < min_step then
    (false, "Commit requires Step " ++ toString min_step ++
      "+. Current: Step " ++ toString step)
  else if !st.verification.tests_passed then
    (false, "Tests must pass before commit (Step 9)")
  else if !st.approvals.human_review then
    (false, "Human review approval required before commit (Step 12)")
  else
    (true, "OK")

/-- `StateManager.can_push`. -/
def can_push (st : WorkflowState) : Bool × String :=
  let step := st.current_step
  let min_step :=
    ((TEMPORAL_CONSTRAINTS.lookup "push").map Constraint.min_step).getD 15
  if step < min_step then
    (false, "Push requires Step " ++ toString min_step ++
      ". Current: Step " ++ toString step)
  else
    (true, "OK")

/-- The action names accepted by `check-step-validation.py`. -/
inductive GateAction
  | edit
  | commit
  | push
  | implement
deriving DecidableEq, Repr

/-- The dispatch of `check-step-validation.py` `main`: `edit` and
`implement` both go to `can_edit_code`, `commit` to `can_commit`, `push`
to `can_push`. -/
def evaluate (a : GateAction) (st : WorkflowState)
    (context_pack_file_exists : Bool) : Bool × String :=
  match a with
  | GateAction.edit => can_edit_code st context_pack_file_exists
  | GateAction.commit => can_commit st
  | GateAction.push => can_push st
  | GateAction.implement => can_edit_code st context_pack_file_exists

/-- Result of `StateManager.set_current_step`: the new in-memory state, the
lines appended to the durable history log (`HISTORY_FILE`), and whether
`save` was called. -/
structure StepResult where
  state : WorkflowState
  logAppends : List String
  saved : Bool
deriving DecidableEq, Repr

/-- `StateManager.set_current_step`: guarded by `0 <= step <= 15`; inside
the range it updates `current_step`, logs one history entry (in memory and
to the history log) and saves; outside the range it does nothing. -/
def set_current_step (st : WorkflowState) (step : Int) : StepResult :=
  if 0 ≤ step ∧ step ≤ 15 then
    let old_step := st.current_step
    let msg := "Step changed: " ++ toString old_step ++ " -> " ++ toString step
    { state := { st with
        current_step := step
        history := st.history ++ [msg] }
      logAppends := [msg]
      saved := true }
  else
    { state := st, logAppends := [], saved := false }

/-- `StateManager.set_tests_passed`. -/
def set_tests_passed (st : WorkflowState) (passed : Bool) : WorkflowState :=
  { st with verification := { st.verification with tests_passed := passed } }

/-- `StateManager.set_human_approval` (logs a history entry). -/
def set_human_approval (st : WorkflowState) (approved : Bool) : WorkflowState :=
  { st with
    approvals := { st.approvals with human_review := approved }
    history := st.history ++
      ["Human approval: " ++ (if approved then "granted" else "revoked")] }

/-- `StateManager.set_context_pack_exists`. -/
def set_context_pack_exists (st : WorkflowState) (ex : Bool) : WorkflowState :=
  { st with context := { st.context with context_pack_exists := ex } }

/-- `StateManager.set_task_selected`; the bead id is recorded only when the
Python value is truthy (not `None`, not the empty string). -/
def set_task_selected (st : WorkflowState) (selected : Bool)
    (bead_id : Option String) : WorkflowState :=
  let st1 := { st with context := { st.context with task_selected := selected } }
  match bead_id with
  | some b => if b = "" then st1 else { st1 with current_bead_id := some b }
  | none => st1

/-- Python `str.lower`, character by character. -/
def strLower (s : String) : String :=
  String.mk (s.data.map Char.toLower)

/-- Python's `needle in hay` substring test. -/
def strContains (hay needle : String) : Bool :=
  needle.isEmpty || hay.data.tails.any (fun t => needle.data.isPrefixOf t)

/-- `TASK_TO_STEP` of `sync-task-to-state.py`, in declaration order (Python
dict iteration order is insertion order). -/
def TASK_TO_STEP : List (String × Int) :=
  [ ("problem", 0), ("discovery", 1), ("spec", 2), ("plan", 3),
    ("critique", 4), ("rules", 5), ("select", 6), ("context", 7),
    ("implement", 8), ("test", 9), ("verify", 9), ("green", 10),
    ("debug", 11), ("review", 12), ("human", 12), ("second", 13),
    ("commit", 14), ("loop", 15), ("merge", 15) ]

/-- Numeric value of a run of decimal digits (Python `int` of the capture). -/
def digitsVal (cs : List Char) : Nat :=
  cs.foldl (fun acc c => acc * 10 + (c.toNat - 48)) 0

/-- `re.search(r"step\s*(\d+)", s)` on an already-lowercased string:
leftmost occurrence of `step`, maximal whitespace skip, then at least one
digit (greedy `\d+`); whitespace is never a digit, so regex backtracking
can never produce another match at the same position. -/
def findStepNum : List Char → Option Nat
  | [] => none
  | c :: rest =>
    if List.isPrefixOf ['s', 't', 'e', 'p'] (c :: rest) then
      let after := ((c :: rest).drop 4).dropWhile Char.isWhitespace
      let digits := after.takeWhile Char.isDigit
      if digits.isEmpty then findStepNum rest
      else some (digitsVal digits)
    else findStepNum rest

/-- `infer_step_from_task` of `sync-task-to-state.py`. -/
def infer_step_from_task (task_subject : String) : Int :=
  let subject_lower := strLower task_subject
  match TASK_TO_STEP.find? (fun kv => strContains subject_lower kv.1) with
  | some kv => kv.2
  | none =>
    match findStepNum subject_lower.data with
    | some n => (n : Int)
    | none => -1

/-- The `status` field read by `sync-task-to-state.py` from its input. -/
inductive SyncStatus
  | completed
  | in_progress
  | other
deriving DecidableEq, Repr

/-- One state-mutating entry point of the system: a `vibe-cli.py` command,
a `sync-task-to-state.py` invocation, the `post-edit-verification.py`
hook, or the `reload-state.py` session-start hook. -/
inductive Op
  | cliSetStep (n : Int)
  | cliReset
  | cliApprove (approved : Bool)
  | cliTestsPassed (passed : Bool)
  | cliContextPack
  | cliSelectTask (task_id : String)
  | syncTask (status : SyncStatus) (subject : String) (task_id : String)
  | postEdit (file_path : String)
  | reloadSession (context_pack_file_exists : Bool)

/-- The `new_status == "completed"` branch of `sync-task-to-state.py`
`main`. -/
def syncTaskCompleted (st : WorkflowState) (subject : String) : WorkflowState :=
  let inferred_step := infer_step_from_task subject
  let current_step := st.current_step
  let st1 :=
    if inferred_step > current_step then (set_current_step st inferred_step).state
    else st
  if inferred_step = 7 then set_context_pack_exists st1 true
  else if inferred_step = 9 then set_tests_passed st1 true
  else if inferred_step = 12 then set_human_approval st1 true
  else st1

/-- The `new_status == "in_progress"` branch of `sync-task-to-state.py`
`main`. -/
def syncTaskInProgress (st : WorkflowState) (subject task_id : String) :
    WorkflowState :=
  let st1 := set_task_selected st true (some task_id)
  let inferred_step := infer_step_from_task subject
  if inferred_step ≥ 0 then (set_current_step st1 inferred_step).state
  else st1

/-- Effect of one entry-point invocation on the workflow state, mirroring
the corresponding Python `main`/command handler. -/
def applyOp (st : WorkflowState) (op : Op) : WorkflowState :=
  match op with
  | Op.cliSetStep n =>
    if 0 ≤ n ∧ n ≤ 15 then (set_current_step st n).state else st
  | Op.cliReset => defaultWorkflowState
  | Op.cliApprove approved => set_human_approval st approved
  | Op.cliTestsPassed passed => set_tests_passed st passed
  | Op.cliContextPack => set_context_pack_exists st true
  | Op.cliSelectTask task_id => set_task_selected st true (some task_id)
  | Op.syncTask SyncStatus.completed subject _ => syncTaskCompleted st subject
  | Op.syncTask SyncStatus.in_progress subject task_id =>
    syncTaskInProgress st subject task_id
  | Op.syncTask SyncStatus.other _ _ => st
  | Op.postEdit file_path =>
    let st1 :=
      if st.verification.tests_passed then set_tests_passed st false else st
    { st1 with history := st1.history ++ ["Code edited: " ++ file_path] }
  | Op.reloadSession ex => if ex then set_context_pack_exists st true else st

/-- JSON-like values, for the document-level (dictionary) view of the
persisted state: `json.load`/`json.dump` of `state_manager.py` work on
this representation.  Objects are ordered key-value lists, as Python
dicts are. -/
inductive J
  | null
  | jb (x : Bool)
  | ji (x : Int)
  | js (x : String)
  | jarr (xs : List J)
  | jobj (fields : List (String × J))

/-- Python `d.get(k)` on an object's key-value list (first occurrence
wins; parsed JSON objects have unique keys). -/
def dictGet (kvs : List (String × J)) (k : String) : Option J :=
  (kvs.find? (fun kv => kv.1 == k)).map (fun kv => kv.2)

/-- Python `d[k] = v`: replace the value in place when the key is present,
append the key otherwise. -/
def dictSet (kvs : List (String × J)) (k : String) (v : J) :
    List (String × J) :=
  if (dictGet kvs k).isSome then
    kvs.map (fun kv => if kv.1 == k then (k, v) else kv)
  else kvs ++ [(k, v)]

/-- Python's double-splat merge `{**a, **b}`: all keys of `a` (with `b`'s
value when `b` also has the key), then the keys of `b` not in `a`. -/
def pyMerge (a b : List (String × J)) : List (String × J) :=
  a.map (fun kv => (kv.1, (dictGet b kv.1).getD kv.2)) ++
    b.filter (fun kv => (dictGet a kv.1).isNone)

/-- First-some choice on optional values (`x if x is not None else y`). -/
def optOr {α : Type} (a b : Option α) : Option α :=
  match a with
  | some v => some v
  | none => b

/-- `DEFAULT_STATE` of `config.py`, as a document. -/
def DEFAULT_STATE : List (String × J) :=
  [ ("current_step", J.ji 0),
    ("current_bead_id", J.null),
    ("problem_statement", J.js ""),
    ("status", J.js "initialized"),
    ("verification", J.jobj
      [("tests_passed", J.jb false), ("lint_passed", J.jb false),
       ("last_check", J.null)]),
    ("approvals", J.jobj
      [("spec_md", J.jb false), ("plan_md", J.jb false),
       ("human_review", J.jb false)]),
    ("context", J.jobj
      [("context_pack_exists", J.jb false), ("task_selected", J.jb false)]),
    ("session", J.jobj
      [("started_at", J.null), ("last_activity", J.null),
       ("context_percentage", J.ji 0)]),
    ("history", J.jarr []) ]

/-- What reading `STATE_FILE` can yield: no file, an unparseable file
(`json.JSONDecodeError`), or a parsed document. -/
inductive FileRead
  | absent
  | corrupt
  | parsed (d : List (String × J))

/-- `StateManager._load_state`: defaults when the file is absent or
corrupt, otherwise the two-level merge `{**DEFAULT_STATE, **state}`. -/
def loadState : FileRead → List (String × J)
  | FileRead.absent => DEFAULT_STATE
  | FileRead.corrupt => DEFAULT_STATE
  | FileRead.parsed d => pyMerge DEFAULT_STATE d

/-- `StateManager.save`: stamp `session.last_activity` with the current
time, then write the document.  `none` models the `KeyError`/`TypeError`
raised when the state has no `session` object (never the case for a state
produced by `_load_state`). -/
def saveDoc (state : List (String × J)) (now : String) :
    Option (List (String × J)) :=
  match dictGet state "session" with
  | some (J.jobj sess) =>
    some (dictSet state "session"
      (J.jobj (dictSet sess "last_activity" (J.js now))))
  | _ => none

/-- The write sequence `save` performs on the durable file:
`open(STATE_FILE, "w")` truncates in place, then `json.dump` writes the
serialized document. -/
inductive WriteOp
  | openTruncate
  | writeChunk (data : String)

/-- The file operations of `StateManager.save`, in order. -/
def saveWriteOps (serialized : String) : List WriteOp :=
  [WriteOp.openTruncate, WriteOp.writeChunk serialized]

/-- Effect of one write operation on the durable file contents. -/
def runWrite (fileContents : String) : WriteOp → String
  | WriteOp.openTruncate => ""
  | WriteOp.writeChunk data => fileContents ++ data

/-- Durable file contents observed when a write sequence is interrupted
after its first `k` operations. -/
def observeInterrupted (prior : String) (ops : List WriteOp) (k : Nat) :
    String :=
  (ops.take k).foldl runWrite prior

theorem dictGet_cons (kv : String × J) (xs : List (String × J)) (k : String) :
    dictGet (kv :: xs) k = if kv.1 == k then some kv.2 else dictGet xs k := by
  by_cases h : kv.1 == k <;> simp [dictGet, List.find?_cons, h]

theorem dictGet_append (xs ys : List (String × J)) (k : String) :
    dictGet (xs ++ ys) k = optOr (dictGet xs k) (dictGet ys k) := by
  induction xs with
  | nil => simp [dictGet, optOr]
  | cons kv xs ih =>
    rw [List.cons_append, dictGet_cons, dictGet_cons]
    by_cases h : kv.1 == k
    · simp [h, optOr]
    · simp [h, ih]

theorem dictGet_mergeLeft (a b : List (String × J)) (k : String) :
    dictGet (a.map (fun kv => (kv.1, (dictGet b kv.1).getD kv.2))) k =
      (dictGet a k).map (fun v => (dictGet b k).getD v) := by
  induction a with
  | nil => simp [dictGet]
  | cons kv a ih =>
    rw [List.map_cons, dictGet_cons, dictGet_cons]
    by_cases h : kv.1 == k
    · have hk : kv.1 = k := by simpa using h
      simp [h, hk]
    · simp [h, ih]

theorem dictGet_filterNotIn (a b : List (String × J)) (k : String) :
    dictGet (b.filter (fun kv => (dictGet a kv.1).isNone)) k =
      if (dictGet a k).isNone then dictGet b k else none := by
  induction b with
  | nil => simp [dictGet]
  | cons kv b ih =>
    rw [List.filter_cons]
    by_cases h : kv.1 == k
    · have hk : kv.1 = k := by simpa using h
      subst hk
      by_cases hq : (dictGet a kv.1).isNone
      · simp [hq, dictGet_cons, h]
      · simp [hq, ih]
    · by_cases hq : (dictGet a kv.1).isNone
      · simp [hq, dictGet_cons, h, ih]
      · simp [hq, ih, dictGet_cons, h]

theorem dictGet_pyMerge (a b : List (String × J)) (k : String) :
    dictGet (pyMerge a b) k = optOr (dictGet b k) (dictGet a k) := by
  rw [pyMerge, dictGet_append, dictGet_mergeLeft, dictGet_filterNotIn]
  cases hb : dictGet b k <;> cases ha : dictGet a k <;>
    simp [optOr, ha, hb]

theorem bite_true {α : Type} {b : Bool} (x y : α) (h : b = true) :
    (if b then x else y) = x := by
  rw [h]
  exact if_pos rfl

theorem bite_false {α : Type} {b : Bool} (x y : α) (h : b = false) :
    (if b then x else y) = y := by
  rw [h]
  exact if_neg Bool.false_ne_true

theorem dictGet_setMap (kvs : List (String × J)) (k' : String) (v : J)
    (k : String) (h : ¬ k' = k) :
    dictGet (kvs.map (fun kv => if kv.1 == k' then (k', v) else kv)) k =
      dictGet kvs k := by
  induction kvs with
  | nil => rfl
  | cons kv kvs ih =>
    rw [List.map_cons]
    by_cases h1 : (kv.1 == k') = true
    · have hk : kv.1 = k' := by simpa using h1
      have h2 : ((k', v).1 == k) = false := beq_eq_false_iff_ne.mpr h
      have h3 : (kv.1 == k) = false := by
        rw [hk]
        exact beq_eq_false_iff_ne.mpr h
      rw [bite_true _ _ h1, dictGet_cons, dictGet_cons,
        bite_false _ _ h2, bite_false _ _ h3]
      exact ih
    · have h1f : (kv.1 == k') = false := by
        cases hb : (kv.1 == k') with
        | true => exact absurd hb h1
        | false => rfl
      rw [bite_false _ _ h1f, dictGet_cons, dictGet_cons]
      cases h2 : (kv.1 == k) with
      | true => rfl
      | false => exact ih

theorem dictGet_dictSet_ne (kvs : List (String × J)) (k' : String) (v : J)
    (k : String) (h : ¬ k' = k) :
    dictGet (dictSet kvs k' v) k = dictGet kvs k := by
  unfold dictSet
  by_cases hp : (dictGet kvs k').isSome
  · rw [if_pos hp, dictGet_setMap kvs k' v k h]
  · rw [if_neg hp, dictGet_append]
    have hke : (k' == k) = false := beq_eq_false_iff_ne.mpr h
    have h2 : dictGet [(k', v)] k = none := by
      rw [dictGet_cons, bite_false _ _ hke]
      rfl
    rw [h2]
    cases dictGet kvs k <;> simp [optOr]

theorem lookup_cons {α β : Type} [BEq α] (a k : α) (v : β)
    (es : List (α × β)) :
    List.lookup a ((k, v) :: es) =
      if a == k then some v else List.lookup a es := by
  simp only [List.lookup]
  cases h : a == k <;> rfl

theorem can_push_eq (st : WorkflowState) :
    can_push st =
      if st.current_step < 15 then
        (false, "Push requires Step 15. Current: Step " ++
          toString st.current_step)
      else (true, "OK") := rfl

theorem allows_edit_steps (n : Int)
    (h : (get_step_info n).allows_code_edit = true) :
    n = 8 ∨ n = 9 ∨ n = 10 ∨ n = 11 := by
  by_cases k8 : n = 8
  · exact Or.inl k8
  by_cases k9 : n = 9
  · exact Or.inr (Or.inl k9)
  by_cases k10 : n = 10
  · exact Or.inr (Or.inr (Or.inl k10))
  by_cases k11 : n = 11
  · exact Or.inr (Or.inr (Or.inr k11))
  exfalso
  by_cases k0 : n = 0
  · subst k0; exact absurd h (by decide)
  by_cases k1 : n = 1
  · subst k1; exact absurd h (by decide)
  by_cases k2 : n = 2
  · subst k2; exact absurd h (by decide)
  by_cases k3 : n = 3
  · subst k3; exact absurd h (by decide)
  by_cases k4 : n = 4
  · subst k4; exact absurd h (by decide)
  by_cases k5 : n = 5
  · subst k5; exact absurd h (by decide)
  by_cases k6 : n = 6
  · subst k6; exact absurd h (by decide)
  by_cases k7 : n = 7
  · subst k7; exact absurd h (by decide)
  by_cases k12 : n = 12
  · subst k12; exact absurd h (by decide)
  by_cases k13 : n = 13
  · subst k13; exact absurd h (by decide)
  by_cases k14 : n = 14
  · subst k14; exact absurd h (by decide)
  by_cases k15 : n = 15
  · subst k15; exact absurd h (by decide)
  have hl : STEPS.lookup n = none := by
    have e0 : (n == (0 : Int)) = false := beq_eq_false_iff_ne.mpr k0
    have e1 : (n == (1 : Int)) = false := beq_eq_false_iff_ne.mpr k1
    have e2 : (n == (2 : Int)) = false := beq_eq_false_iff_ne.mpr k2
    have e3 : (n == (3 : Int)) = false := beq_eq_false_iff_ne.mpr k3
    have e4 : (n == (4 : Int)) = false := beq_eq_false_iff_ne.mpr k4
    have e5 : (n == (5 : Int)) = false := beq_eq_false_iff_ne.mpr k5
    have e6 : (n == (6 : Int)) = false := beq_eq_false_iff_ne.mpr k6
    have e7 : (n == (7 : Int)) = false := beq_eq_false_iff_ne.mpr k7
    have e8 : (n == (8 : Int)) = false := beq_eq_false_iff_ne.mpr k8
    have e9 : (n == (9 : Int)) = false := beq_eq_false_iff_ne.mpr k9
    have e10 : (n == (10 : Int)) = false := beq_eq_false_iff_ne.mpr k10
    have e11 : (n == (11 : Int)) = false := beq_eq_false_iff_ne.mpr k11
    have e12 : (n == (12 : Int)) = false := beq_eq_false_iff_ne.mpr k12
    have e13 : (n == (13 : Int)) = false := beq_eq_false_iff_ne.mpr k13
    have e14 : (n == (14 : Int)) = false := beq_eq_false_iff_ne.mpr k14
    have e15 : (n == (15 : Int)) = false := beq_eq_false_iff_ne.mpr k15
    simp only [STEPS, lookup_cons]
    rw [e0, e1, e2, e3, e4, e5, e6, e7, e8, e9, e10, e11, e12, e13, e14, e15]
    rfl
  simp only [get_step_info] at h
  rw [hl] at h
  exact absurd h (by decide)

theorem can_commit_eq (st : WorkflowState) :
    can_commit st =
      if st.current_step < 14 then
        (false,
          "Commit requires Step 14+. Current: Step " ++ toString st.current_step)
      else if !st.verification.tests_passed then
        (false, "Tests must pass before commit (Step 9)")
      else if !st.approvals.human_review then
        (false, "Human review approval required before commit (Step 12)")
      else (true, "OK") := rfl

theorem commit_reason_ne_tests (t : String) :
    ("Commit requires Step 14+. Current: Step " ++ t) ≠
      "Tests must pass before commit (Step 9)" := by
  intro hcontra
  have h2 := congrArg (fun s => s.data.head?) hcontra
  simp [String.data_append] at h2

theorem commit_reason_ne_human (t : String) :
    ("Commit requires Step 14+. Current: Step " ++ t) ≠
      "Human review approval required before commit (Step 12)" := by
  intro hcontra
  have h2 := congrArg (fun s => s.data.head?) hcontra
  simp [String.data_append] at h2

theorem tests_ne_human :
    ("Tests must pass before commit (Step 9)" : String) ≠
      "Human review approval required before commit (Step 12)" := by decide

/-- C1: `evaluate(commit)` (`can_commit`) denies with the temporal reason
whenever `current_step < 14` regardless of flags; denies for missing
`tests_passed` whenever the step check passes; denies for missing
`human_review` whenever the step and tests checks pass; allows with the
fixed "OK" reason exactly when all three hold; and the three denial
reasons are pairwise distinct, with the first failing check (step, then
tests, then review) determining the result. -/
theorem can_commit_gate_order (st : WorkflowState) :
    (st.current_step < 14 →
      can_commit st = (false,
        "Commit requires Step 14+. Current: Step " ++ toString st.current_step)) ∧
    (¬ st.current_step < 14 → st.verification.tests_passed = false →
      can_commit st = (false, "Tests must pass before commit (Step 9)")) ∧
    (¬ st.current_step < 14 → st.verification.tests_passed = true →
        st.approvals.human_review = false →
      can_commit st =
        (false, "Human review approval required before commit (Step 12)")) ∧
    (can_commit st = (true, "OK") ↔
      ¬ st.current_step < 14 ∧ st.verification.tests_passed = true ∧
        st.approvals.human_review = true) ∧
    ("Commit requires Step 14+. Current: Step " ++ toString st.current_step ≠
      "Tests must pass before commit (Step 9)") ∧
    ("Commit requires Step 14+. Current: Step " ++ toString st.current_step ≠
      "Human review approval required before commit (Step 12)") ∧
    (("Tests must pass before commit (Step 9)" : String) ≠
      "Human review approval required before commit (Step 12)") := by
  obtain ⟨step, bead, prob, ⟨tp, lp⟩, ⟨sm, pm, hr⟩, ctx, hist⟩ := st
  refine ⟨?_, ?_, ?_, ?_, commit_reason_ne_tests _, commit_reason_ne_human _,
    tests_ne_human⟩ <;>
    by_cases hs : step < 14 <;> cases tp <;> cases hr <;>
      simp [can_commit_eq, hs]

/-- Step 13 state used as concrete input for the commit gate. -/
def stepThirteen : WorkflowState :=
  { defaultWorkflowState with current_step := 13 }

/-- Step 14 state with tests passed and human review granted. -/
def commitReady : WorkflowState :=
  { defaultWorkflowState with
      current_step := 14
      verification := ⟨true, false⟩
      approvals := ⟨false, false, true⟩ }

theorem can_commit_gate_order_witness :
    can_commit stepThirteen =
      (false, "Commit requires Step 14+. Current: Step 13") ∧
    can_commit commitReady = (true, "OK") := by
  constructor
  · exact (can_commit_gate_order stepThirteen).1 (by decide)
  · exact ((can_commit_gate_order commitReady).2.2.2.1).mpr
      ⟨by decide, rfl, rfl⟩

/-- C5: `infer_step_from_task` scans the keyword table case-insensitively
(first declared match wins), then tries the `step <integer>` pattern, and
returns the sentinel -1 otherwise; in particular the three evaluations the
spec lists hold, and a free `step <n>` pattern is picked up only when no
keyword matched. -/
theorem infer_step_examples :
    infer_step_from_task "Write spec.md for login" = 2 ∧
    infer_step_from_task "Step 11 debugging" = 11 ∧
    infer_step_from_task "random unrelated text" = -1 ∧
    infer_step_from_task "now at step 7" = 7 := by decide

/-- C4: `set_current_step(n)` with `n` outside [0, 15] is a complete
no-op: the state (every field, history included) is unchanged, nothing is
appended to the history log, and no save happens.  Inside the range it
sets `current_step` to `n`, appends exactly one history entry with the
`old -> new` message (in memory and to the history log), leaves every
other field unchanged, and saves. -/
theorem set_current_step_noop_or_transition (st : WorkflowState) (n : Int) :
    ((n < 0 ∨ 15 < n) → set_current_step st n = ⟨st, [], false⟩) ∧
    (0 ≤ n → n ≤ 15 →
      set_current_step st n =
        ⟨{ st with
            current_step := n
            history := st.history ++
              ["Step changed: " ++ toString st.current_step ++ " -> " ++
                toString n] },
          ["Step changed: " ++ toString st.current_step ++ " -> " ++
            toString n],
          true⟩) := by
  constructor
  · intro h
    unfold set_current_step
    rw [if_neg (by omega)]
  · intro h1 h2
    unfold set_current_step
    rw [if_pos ⟨h1, h2⟩]

theorem set_current_step_noop_or_transition_witness :
    set_current_step defaultWorkflowState 20 =
      ⟨defaultWorkflowState, [], false⟩ ∧
    set_current_step defaultWorkflowState 5 =
      ⟨{ defaultWorkflowState with
          current_step := 5
          history := ["Step changed: 0 -> 5"] },
        ["Step changed: 0 -> 5"], true⟩ := by
  constructor
  · exact (set_current_step_noop_or_transition defaultWorkflowState 20).1
      (by decide)
  · exact (set_current_step_noop_or_transition defaultWorkflowState 5).2
      (by decide) (by decide)

/-- C7: `_load_state` never raises: a corrupt (unparseable) or absent
document yields the full default state, and a parsed document is merged
with the defaults at the top level only — a top-level key present in the
document is taken verbatim, an absent one takes the whole default
sub-object.  In particular a partial `verification` sub-object stays
partial after load (no deep merge). -/
theorem load_merge_defaults :
    loadState FileRead.corrupt = DEFAULT_STATE ∧
    loadState FileRead.absent = DEFAULT_STATE ∧
    (∀ d : List (String × J), ∀ k : String,
      dictGet (loadState (FileRead.parsed d)) k =
        optOr (dictGet d k) (dictGet DEFAULT_STATE k)) ∧
    dictGet (loadState (FileRead.parsed
        [("verification", J.jobj [("tests_passed", J.jb true)])]))
      "verification" = some (J.jobj [("tests_passed", J.jb true)]) := by
  refine ⟨rfl, rfl, ?_, ?_⟩
  · intro d k
    exact dictGet_pyMerge DEFAULT_STATE d k
  · rfl

/-- C6: saving a workflow state document and loading it back preserves the
`current_step`, `approvals`, `verification`, `context` and
`current_bead_id` top-level fields, even though `save` re-stamps
`session.last_activity`. -/
theorem save_load_roundtrip (s : List (String × J)) (t : String)
    (d : List (String × J)) (hsave : saveDoc s t = some d) (k : String)
    (hk : k = "current_step" ∨ k = "approvals" ∨ k = "verification" ∨
      k = "context" ∨ k = "current_bead_id")
    (hpresent : (dictGet s k).isSome) :
    dictGet (loadState (FileRead.parsed d)) k = dictGet s k := by
  have hne : ¬ ("session" : String) = k := by
    rcases hk with h | h | h | h | h <;> subst h <;> decide
  have hd : dictGet d k = dictGet s k := by
    unfold saveDoc at hsave
    cases hses : dictGet s "session" with
    | none =>
      rw [hses] at hsave
      exact Option.noConfusion hsave
    | some v =>
      rw [hses] at hsave
      cases v with
      | jobj sess =>
        simp only [Option.some.injEq] at hsave
        rw [← hsave]
        exact dictGet_dictSet_ne s "session" _ k hne
      | null => exact Option.noConfusion hsave
      | jb x => exact Option.noConfusion hsave
      | ji x => exact Option.noConfusion hsave
      | js x => exact Option.noConfusion hsave
      | jarr xs => exact Option.noConfusion hsave
  show dictGet (pyMerge DEFAULT_STATE d) k = dictGet s k
  rw [dictGet_pyMerge, hd]
  cases hp : dictGet s k with
  | none =>
    rw [hp] at hpresent
    exact Bool.noConfusion hpresent
  | some v => rfl

/-- The document produced by saving the default state. -/
def savedDefaultDoc : List (String × J) :=
  (saveDoc DEFAULT_STATE "now").getD []

theorem save_load_roundtrip_witness :
    dictGet (loadState (FileRead.parsed savedDefaultDoc)) "current_step" =
      dictGet DEFAULT_STATE "current_step" :=
  save_load_roundtrip DEFAULT_STATE "now" savedDefaultDoc rfl "current_step"
    (Or.inl rfl) rfl

/-- C8: contrary to the claim, `StateManager.save` is not an atomic
replace: it opens the state file with mode `w` (truncating it in place)
and then writes.  A save interrupted between the truncation and the write
leaves an empty file, which is neither the prior document nor the new
one.  This contradicts spec section 5 ("a crash mid-write should never be
observed as a half-written document; atomic replace-on-write is
required"), so it is a bug in the code. -/
theorem save_not_atomic_truncate_window :
    observeInterrupted "old-document" (saveWriteOps "new-document") 1 = "" ∧
    ("" : String) ≠ "old-document" ∧
    ("" : String) ≠ "new-document" ∧
    observeInterrupted "old-document" (saveWriteOps "new-document") 2 =
      "new-document" := by decide

/-- C10: for every state whose `current_step` is in [0, 15], the temporal
denial branch of `can_edit_code` ("Code editing requires Step 8+ ...") is
unreachable: the `edit_code` minimum step is 8, every catalog step that
allows code edits is numbered at least 8, and every result of
`can_edit_code` is the capability denial, the context-pack denial, or the
"OK" allowance. -/
theorem edit_temporal_branch_unreachable (st : WorkflowState) (f : Bool)
    (h1 : 0 ≤ st.current_step) (h2 : st.current_step ≤ 15) :
    ((TEMPORAL_CONSTRAINTS.lookup "edit_code").map Constraint.min_step).getD
        0 = 8 ∧
    (∀ p ∈ STEPS, p.2.allows_code_edit = true → 8 ≤ p.1) ∧
    (can_edit_code st f =
        (false, "Step " ++ toString st.current_step ++ " (" ++
          (get_step_info st.current_step).name ++
          ") does not allow code editing. Must be Step 8+ (Implementation).") ∨
      can_edit_code st f =
        (false, "context-pack.md must exist before code editing (Step 7)") ∨
      can_edit_code st f = (true, "OK")) := by
  refine ⟨rfl, by decide, ?_⟩
  obtain ⟨step, bead, prob, ver, app, ⟨cpe, ts⟩, hist⟩ := st
  have hb1 : 0 ≤ step := h1
  have hb2 : step ≤ 15 := h2
  clear h1 h2
  cases cpe <;> cases f <;> interval_cases step <;>
    first
      | exact Or.inl rfl
      | exact Or.inr (Or.inl rfl)
      | exact Or.inr (Or.inr rfl)

theorem edit_temporal_branch_unreachable_witness :
    can_edit_code defaultWorkflowState false =
      (false, "Step " ++ toString defaultWorkflowState.current_step ++
        " (" ++ (get_step_info defaultWorkflowState.current_step).name ++
        ") does not allow code editing. Must be Step 8+ (Implementation).") ∨
    can_edit_code defaultWorkflowState false =
      (false, "context-pack.md must exist before code editing (Step 7)") ∨
    can_edit_code defaultWorkflowState false = (true, "OK") :=
  (edit_temporal_branch_unreachable defaultWorkflowState false (by decide)
    (by decide)).2.2

/-- Step 8 state with the stored context-pack flag false. -/
def implFlagFalse : WorkflowState :=
  { defaultWorkflowState with current_step := 8 }

/-- Step 8 state with the stored context-pack flag true (and
`task_selected` false). -/
def implFlagTrue : WorkflowState :=
  { defaultWorkflowState with
      current_step := 8
      context := ⟨true, false⟩ }

/-- C2 counterexample: the claim says that for a state at a step that
allows code edits, either the stored flag or the live file signal being
false fails the context-pack check.  In the code the check denies only
when BOTH are false: with the stored flag false but the file present,
and with the stored flag true but the file absent, `evaluate(edit)`
allows. -/
theorem context_pack_cross_check_counterexample :
    (get_step_info implFlagFalse.current_step).allows_code_edit = true ∧
    implFlagFalse.context.context_pack_exists = false ∧
    can_edit_code implFlagFalse true = (true, "OK") ∧
    (get_step_info implFlagTrue.current_step).allows_code_edit = true ∧
    implFlagTrue.context.context_pack_exists = true ∧
    can_edit_code implFlagTrue false = (true, "OK") := by decide

/-- C2 amended: at a step whose `allows_code_edit` is true, the
context-pack precondition of `evaluate(edit)` consults the stored flag
and, only when that is false, falls back to the live file-existence
signal: it denies exactly when both are false, and allows whenever either
is true. -/
theorem context_pack_cross_check_amended (st : WorkflowState) (f : Bool)
    (h : (get_step_info st.current_step).allows_code_edit = true) :
    (can_edit_code st f =
        (false, "context-pack.md must exist before code editing (Step 7)") ↔
      st.context.context_pack_exists = false ∧ f = false) ∧
    (can_edit_code st f = (true, "OK") ↔
      (st.context.context_pack_exists = true ∨ f = true)) := by
  obtain ⟨step, bead, prob, ver, app, ⟨cpe, ts⟩, hist⟩ := st
  obtain h' | h' | h' | h' := allows_edit_steps step h <;> subst h' <;>
    cases cpe <;> cases f <;>
      simp [can_edit_code, get_step_info, STEPS, TEMPORAL_CONSTRAINTS,
        List.lookup, requiresLoop]

theorem context_pack_cross_check_amended_witness :
    can_edit_code implFlagTrue false = (true, "OK") :=
  ((context_pack_cross_check_amended implFlagTrue false (by decide)).2).mpr
    (Or.inl rfl)

/-- Step 15 state with every verification/approval/context flag false and
no bead selected: nothing in it records a commit. -/
def pushStepFifteen : WorkflowState :=
  { defaultWorkflowState with current_step := 15 }

/-- C3 counterexample: the constraint table lists `committed` as a
precondition of `push` and `task_selected` as a precondition of
`implement`, but the evaluator never evaluates either.  At step 15 with
nothing committed (no flag of the state records a commit) `push` is
allowed, and at step 8 with `task_selected = false` `implement` is
allowed, so neither precondition can cause a denial. -/
theorem push_preconditions_not_evaluated_counterexample :
    evaluate GateAction.push pushStepFifteen false = (true, "OK") ∧
    pushStepFifteen.verification.tests_passed = false ∧
    pushStepFifteen.approvals.human_review = false ∧
    pushStepFifteen.current_bead_id = none ∧
    evaluate GateAction.implement implFlagTrue false = (true, "OK") ∧
    implFlagTrue.context.task_selected = false := by decide

/-- C3 amended: the evaluator checks the `requires` lists of the
Constraint Table only in `can_edit_code` (used for both `edit` and
`implement`), where only `context_pack_exists` is evaluated.  `push`
evaluates no precondition at all — its result depends only on
`current_step` (allow exactly when `current_step >= 15`) — and
`implement` is dispatched to the edit evaluator, whose result is
independent of `task_selected`. -/
theorem gate_preconditions_amended :
    (∀ st : WorkflowState, can_push st =
      if st.current_step < 15 then
        (false, "Push requires Step 15. Current: Step " ++
          toString st.current_step)
      else (true, "OK")) ∧
    (∀ st st' : WorkflowState, st.current_step = st'.current_step →
      can_push st = can_push st') ∧
    (∀ (st : WorkflowState) (f : Bool),
      evaluate GateAction.implement st f = can_edit_code st f) ∧
    (∀ (st : WorkflowState) (f b : Bool),
      can_edit_code
          { st with context := { st.context with task_selected := b } } f =
        can_edit_code st f) := by
  refine ⟨fun st => rfl, ?_, fun st f => rfl, fun st f b => rfl⟩
  intro st st' hstep
  rw [can_push_eq, can_push_eq, hstep]

theorem gate_preconditions_amended_witness :
    can_push pushStepFifteen =
      can_push { pushStepFifteen with approvals := ⟨true, true, true⟩ } :=
  gate_preconditions_amended.2.1 pushStepFifteen
    { pushStepFifteen with approvals := ⟨true, true, true⟩ } rfl

theorem set_current_step_range (st : WorkflowState) (n : Int)
    (h1 : 0 ≤ st.current_step) (h2 : st.current_step ≤ 15) :
    0 ≤ (set_current_step st n).state.current_step ∧
      (set_current_step st n).state.current_step ≤ 15 := by
  unfold set_current_step
  by_cases h : 0 ≤ n ∧ n ≤ 15
  · rw [if_pos h]
    exact ⟨h.1, h.2⟩
  · rw [if_neg h]
    exact ⟨h1, h2⟩

theorem set_task_selected_current_step (st : WorkflowState) (sel : Bool)
    (bid : Option String) :
    (set_task_selected st sel bid).current_step = st.current_step := by
  cases bid with
  | none => rfl
  | some b =>
    by_cases hid : b = ""
    · simp only [set_task_selected, if_pos hid]
    · simp only [set_task_selected, if_neg hid]

theorem applyOp_range (st : WorkflowState) (op : Op)
    (h1 : 0 ≤ st.current_step) (h2 : st.current_step ≤ 15) :
    0 ≤ (applyOp st op).current_step ∧ (applyOp st op).current_step ≤ 15 := by
  cases op with
  | cliSetStep n =>
    show 0 ≤ (if 0 ≤ n ∧ n ≤ 15 then (set_current_step st n).state
        else st).current_step ∧
      (if 0 ≤ n ∧ n ≤ 15 then (set_current_step st n).state
        else st).current_step ≤ 15
    by_cases h : 0 ≤ n ∧ n ≤ 15
    · rw [if_pos h]
      exact set_current_step_range st n h1 h2
    · rw [if_neg h]
      exact ⟨h1, h2⟩
  | cliReset =>
    show 0 ≤ defaultWorkflowState.current_step ∧
      defaultWorkflowState.current_step ≤ 15
    exact ⟨by decide, by decide⟩
  | cliApprove b => exact ⟨h1, h2⟩
  | cliTestsPassed b => exact ⟨h1, h2⟩
  | cliContextPack => exact ⟨h1, h2⟩
  | cliSelectTask task_id =>
    show 0 ≤ (set_task_selected st true (some task_id)).current_step ∧
      (set_task_selected st true (some task_id)).current_step ≤ 15
    rw [set_task_selected_current_step]
    exact ⟨h1, h2⟩
  | syncTask status subject task_id =>
    cases status with
    | completed =>
      show 0 ≤ (syncTaskCompleted st subject).current_step ∧
        (syncTaskCompleted st subject).current_step ≤ 15
      simp only [syncTaskCompleted]
      split_ifs <;>
        first
          | exact set_current_step_range st _ h1 h2
          | exact ⟨h1, h2⟩
    | in_progress =>
      show 0 ≤ (syncTaskInProgress st subject task_id).current_step ∧
        (syncTaskInProgress st subject task_id).current_step ≤ 15
      simp only [syncTaskInProgress]
      by_cases hge : infer_step_from_task subject ≥ 0
      · rw [if_pos hge]
        refine set_current_step_range _ _ ?_ ?_
        · rw [set_task_selected_current_step]
          exact h1
        · rw [set_task_selected_current_step]
          exact h2
      · rw [if_neg hge]
        constructor
        · rw [set_task_selected_current_step]
          exact h1
        · rw [set_task_selected_current_step]
          exact h2
    | other => exact ⟨h1, h2⟩
  | postEdit file_path =>
    show 0 ≤ (if st.verification.tests_passed then set_tests_passed st false
        else st).current_step ∧
      (if st.verification.tests_passed then set_tests_passed st false
        else st).current_step ≤ 15
    cases htp : st.verification.tests_passed
    · exact ⟨h1, h2⟩
    · exact ⟨h1, h2⟩
  | reloadSession ex =>
    cases ex
    · exact ⟨h1, h2⟩
    · exact ⟨h1, h2⟩

/-- C9: starting from the default state, no sequence of entry-point
invocations (CLI commands, task-sync hook calls with arbitrary subjects —
including descriptions matching "step <integer>" with an out-of-range
integer such as 99 — post-edit and session hooks) can drive
`current_step` outside [0, 15]: every change goes through
`set_current_step`, which ignores out-of-range values.  Completing a task
described as "finish step 99 cleanup" leaves the default state's step at
0. -/
theorem current_step_invariant (ops : List Op) :
    (0 ≤ (ops.foldl applyOp defaultWorkflowState).current_step ∧
      (ops.foldl applyOp defaultWorkflowState).current_step ≤ 15) ∧
    (applyOp defaultWorkflowState
        (Op.syncTask SyncStatus.completed "finish step 99 cleanup" "t1")
      ).current_step = 0 := by
  refine ⟨?_, by decide⟩
  suffices hgen : ∀ st : WorkflowState, 0 ≤ st.current_step →
      st.current_step ≤ 15 →
      0 ≤ (ops.foldl applyOp st).current_step ∧
        (ops.foldl applyOp st).current_step ≤ 15 by
    exact hgen defaultWorkflowState (by decide) (by decide)
  induction ops with
  | nil =>
    intro st h1 h2
    exact ⟨h1, h2⟩
  | cons op rest ih =>
    intro st h1 h2
    have h := applyOp_range st op h1 h2
    exact ih (applyOp st op) h.1 h.2


end VibeCode
